import Mathlib

/-
Verification development for the crypto briefing pipeline
(btc_eth_price.py, fetch_news.py, send_summary.py).

Python strings are modelled as lists of characters; Python dictionaries
with string keys are modelled as association lists.  Calls to external
collaborators (the HTTP clients, the store, the text generator) are
modelled by outcome parameters passed to the embedded functions.  A
Python function that can raise an uncaught exception is modelled with
Except: an error value means the exception escapes the function.
-/

/-- Python str is modelled as a list of characters. -/
abbrev PyStr := List Char

/-- Python str.lower, modelled characterwise (ASCII case folding). -/
def pyLower (s : PyStr) : PyStr := s.map Char.toLower

/-- Python startswith test on character lists: first argument is the
needle, second the haystack. -/
def pyStarts : PyStr → PyStr → Bool
  | [], _ => true
  | _ :: _, [] => false
  | a :: xs, b :: ys => a == b && pyStarts xs ys

/-- Python membership test needle in hay for strings: scan every suffix
for a match at its head. -/
def pyContains (needle : PyStr) : PyStr → Bool
  | [] => pyStarts needle []
  | c :: rest => pyStarts needle (c :: rest) || pyContains needle rest

/-- Fuel-driven scan behind pyCount: at a match, skip the length of the
needle and count one occurrence; otherwise advance one character.  The
fuel is an upper bound on the number of scan steps; hay length always
suffices because every step consumes at least one character. -/
def pyCountFuel (needle : PyStr) : Nat → PyStr → Nat
  | _, [] => 0
  | 0, _ => 0
  | fuel + 1, c :: rest =>
    if pyStarts needle (c :: rest) then
      pyCountFuel needle fuel (List.drop (needle.length - 1) rest) + 1
    else
      pyCountFuel needle fuel rest

/-- Python str.count: number of non-overlapping occurrences of the
needle in the hay, scanning left to right.  Python defines the count of
the empty string in s as length of s plus one. -/
def pyCount (needle hay : PyStr) : Nat :=
  if needle.isEmpty then hay.length + 1 else pyCountFuel needle hay.length hay

/-- Uncaught Python exceptions that the embedded code can raise. -/
inductive PyErr where
  | attributeError
  | keyError (key : String)
deriving DecidableEq

/-- Article candidate from the news provider (fetch_news.py).  A field
holds none when the JSON value is null; a string field (and likewise a
missing key, which dict.get defaults to the empty string) is some. -/
structure Article where
  title : Option PyStr
  description : Option PyStr
  content : Option PyStr
deriving DecidableEq

/-- Models article.get(field, default).lower() as in fetch_news.py lines
52 to 54: a null field reaches .lower() and raises AttributeError. -/
def lowerField : Option PyStr → Except PyErr PyStr
  | none => Except.error PyErr.attributeError
  | some s => Except.ok (pyLower s)

/-- is_relevant_article from fetch_news.py lines 41 to 63: lowercase the
three fields and the keyword; accept on a title hit, otherwise accept
when the combined count over description and content is at least 2.
The three field lowerings run in source order before any check, so a
null field raises before the title test. -/
def is_relevant_article (article : Article) (keyword : PyStr) : Except PyErr Bool :=
  match lowerField article.title, lowerField article.description,
      lowerField article.content with
  | Except.error e, _, _ => Except.error e
  | _, Except.error e, _ => Except.error e
  | _, _, Except.error e => Except.error e
  | Except.ok title, Except.ok description, Except.ok content =>
    let kw := pyLower keyword
    if pyContains kw title then
      Except.ok true
    else
      Except.ok (decide (2 ≤ pyCount kw description + pyCount kw content))

/-- Text shown for an article field retrieved with plain dict.get (no
default) when formatting the returned headline: a missing key would
print as None, a string prints as itself. -/
def pyStrOfOpt : Option PyStr → PyStr
  | none => "None".toList
  | some s => s

/-- The returned string for an accepted article, fetch_news.py line 94:
title, a colon and a space, then the description. -/
def formatArticle (a : Article) : PyStr :=
  pyStrOfOpt a.title ++ ": ".toList ++ pyStrOfOpt a.description

/-- Sentinel returned when candidates exist but none passes the filter
(fetch_news.py line 95). -/
def noRelevantMsg : PyStr := "No sufficiently relevant articles found.".toList

/-- Sentinel returned when the provider sends no articles
(fetch_news.py line 97). -/
def noArticlesMsg : PyStr := "No articles found.".toList

/-- Error string built in both except branches of fetch_latest_news
(fetch_news.py lines 106 and 110). -/
def errorFetchMsg (query msg : PyStr) : PyStr :=
  "Error fetching news for ".toList ++ query ++ ": ".toList ++ msg

/-- The for loop of fetch_latest_news, lines 90 to 95: return the first
relevant candidate formatted, fall through to the no-relevant sentinel,
and propagate an exception raised by the relevance check. -/
def firstRelevant : List Article → PyStr → Except PyErr PyStr
  | [], _ => Except.ok noRelevantMsg
  | a :: rest, query =>
    match is_relevant_article a query with
    | Except.error e => Except.error e
    | Except.ok true => Except.ok (formatArticle a)
    | Except.ok false => firstRelevant rest query

/-- Outcome of the HTTP call inside fetch_latest_news: an HTTPError from
raise_for_status, another RequestException, or a parsed JSON body whose
articles key is absent or null (none), or a list. -/
inductive NewsOutcome where
  | httpError (msg : PyStr)
  | requestError (msg : PyStr)
  | ok (articles : Option (List Article))

/-- fetch_latest_news from fetch_news.py lines 65 to 110, as a function
of the query and of the provider call outcome.  The two except clauses
catch only requests exceptions, so an AttributeError raised by the
relevance check on a null field escapes as an error value. -/
def fetch_latest_news (query : PyStr) (outcome : NewsOutcome) : Except PyErr PyStr :=
  match outcome with
  | NewsOutcome.httpError msg => Except.ok (errorFetchMsg query msg)
  | NewsOutcome.requestError msg => Except.ok (errorFetchMsg query msg)
  | NewsOutcome.ok none => Except.ok noArticlesMsg
  | NewsOutcome.ok (some []) => Except.ok noArticlesMsg
  | NewsOutcome.ok (some (a :: rest)) => firstRelevant (a :: rest) query

/-- Query constant for Bitcoin news, fetch_news.py line 135. -/
def btcQuery : PyStr := "Bitcoin".toList

/-- Query constant for Ethereum news, fetch_news.py line 136. -/
def ethQuery : PyStr := "Ethereum".toList

/-- main of fetch_news.py lines 133 to 146: fetch Bitcoin news, insert
it, fetch Ethereum news, insert it.  The result records the insert
calls issued to the store as table and value pairs, in order, together
with the exception that ended the run early, if any.  insert_news
swallows store errors, so every call to it issues exactly one insert
attempt with the given value. -/
def fetch_news_main (btcOut ethOut : NewsOutcome) :
    List (String × PyStr) × Option PyErr :=
  match fetch_latest_news btcQuery btcOut with
  | Except.error e => ([], some e)
  | Except.ok b =>
    match fetch_latest_news ethQuery ethOut with
    | Except.error e => ([("btc_news", b)], some e)
    | Except.ok t => ([("btc_news", b), ("eth_news", t)], none)

/-- Outcome of the price provider call in fetch_crypto_price: a
requests.RequestException (caught), or a parsed JSON body modelled as
an association list from coin id to an association list of currency to
price. -/
inductive PriceOutcome where
  | requestError (msg : String)
  | ok (json : List (String × List (String × ℚ)))

/-- Python dictionary indexing d[k]: raises KeyError when the key is
absent. -/
def pyDictIndex {α : Type} (d : List (String × α)) (k : String) : Except PyErr α :=
  match d.find? (fun p => p.1 == k) with
  | some p => Except.ok p.2
  | none => Except.error (PyErr.keyError k)

/-- fetch_crypto_price from btc_eth_price.py lines 20 to 40: on a
caught requests exception return None; otherwise index the payload by
the coin id and then by usd.  Only RequestException is caught, so a
KeyError from a malformed payload escapes as an error value. -/
def fetch_crypto_price (cryptoId : String) (outcome : PriceOutcome) :
    Except PyErr (Option ℚ) :=
  match outcome with
  | PriceOutcome.requestError _ => Except.ok none
  | PriceOutcome.ok data =>
    match pyDictIndex data cryptoId with
    | Except.error e => Except.error e
    | Except.ok inner =>
      match pyDictIndex inner "usd" with
      | Except.error e => Except.error e
      | Except.ok price => Except.ok (some price)

/-- One row sent to a price table by store_price: the prices column and
the created_at timestamp. -/
structure PriceInsert where
  table : String
  prices : ℚ
  created_at : String
deriving DecidableEq

/-- store_price from btc_eth_price.py lines 42 to 64: a None price is
skipped with no insert; otherwise one insert attempt is issued (store
errors are caught and logged, so the attempt itself always happens). -/
def store_price (tableName : String) (price : Option ℚ) (now : String) :
    List PriceInsert :=
  match price with
  | none => []
  | some p => [⟨tableName, p, now⟩]

/-- main of btc_eth_price.py lines 66 to 73: fetch both prices, then
store both.  An uncaught KeyError from either fetch aborts the run
before any store call. -/
def btc_eth_price_main (btcOut ethOut : PriceOutcome) (now : String) :
    Except PyErr (List PriceInsert) :=
  match fetch_crypto_price "bitcoin" btcOut with
  | Except.error e => Except.error e
  | Except.ok b =>
    match fetch_crypto_price "ethereum" ethOut with
    | Except.error e => Except.error e
    | Except.ok t =>
      Except.ok (store_price "btc_prices" b now ++ store_price "eth_prices" t now)

/-- A row returned by the store in send_summary.py: a dictionary from
column name to the stored value, with the value modelled by its string
form.  The empty dictionary is the EMPTY result. -/
abbrev Row := List (String × PyStr)

/-- Python dict.get(key, default) on a row. -/
def rowGet (row : Row) (key : String) (dflt : PyStr) : PyStr :=
  match row.find? (fun p => p.1 == key) with
  | some p => p.2
  | none => dflt

/-- Result of a retried call: the final value or final exception, the
number of attempts made, and the total seconds spent waiting between
attempts. -/
structure RetryOutcome (ε α : Type) where
  result : Except ε α
  attemptsMade : Nat
  totalWaitSec : Nat

/-- Modelled from the spec: the retry decorator applied to
fetch_latest_entry in send_summary.py line 83 comes from the tenacity
library, whose code is outside this repository; the spec describes it
as up to 3 attempts with a fixed 5 second wait between attempts, the
exception reaching the caller once attempts are exhausted.  The first
argument maps the attempt index (from 0) to the outcome of the wrapped
body on that attempt; the remaining argument counts the retries still
allowed after the current attempt. -/
def retryGo {ε α : Type} (f : Nat → Except ε α) (waitSec : Nat) :
    Nat → Nat → Nat → RetryOutcome ε α
  | remaining, i, acc =>
    match f i with
    | Except.ok a => ⟨Except.ok a, i + 1, acc⟩
    | Except.error e =>
      match remaining with
      | 0 => ⟨Except.error e, i + 1, acc⟩
      | r + 1 => retryGo f waitSec r (i + 1) (acc + waitSec)

/-- Runs a call under the retry policy: maxAttempts total attempts with
waitSec seconds between consecutive attempts. -/
def retryRun {ε α : Type} (f : Nat → Except ε α) (waitSec maxAttempts : Nat) :
    RetryOutcome ε α :=
  retryGo f waitSec (maxAttempts - 1) 0 0

/-- Head row of the result set, or the empty dictionary when the result
set has no rows (send_summary.py lines 103 to 107). -/
def firstRowOrEmpty : List Row → Row
  | [] => []
  | r :: _ => r

/-- The body of fetch_latest_entry for one attempt, send_summary.py
lines 95 to 110: an exception from the store call is re-raised to
trigger the retry; a successful read returns the first row, or the
empty dictionary when the table has no rows. -/
def fetch_latest_entry_once (storeRead : Except String (List Row)) :
    Except String Row :=
  match storeRead with
  | Except.error e => Except.error e
  | Except.ok rows => Except.ok (firstRowOrEmpty rows)

/-- fetch_latest_entry from send_summary.py lines 83 to 110: the body
wrapped in the retry policy of 3 attempts with a 5 second wait.  The
argument gives the outcome of the underlying store read on each
attempt. -/
def fetch_latest_entry (reads : Nat → Except String (List Row)) :
    RetryOutcome String Row :=
  retryRun (fun i => fetch_latest_entry_once (reads i)) 5 3

/-- Log line for incomplete Bitcoin data, send_summary.py line 204. -/
def btcIncompleteMsg : PyStr :=
  "Incomplete BTC data. Aborting email composition.".toList

/-- Log line for incomplete Ethereum data, send_summary.py line 207. -/
def ethIncompleteMsg : PyStr :=
  "Incomplete ETH data. Aborting email composition.".toList

/-- Fallback value N/A used by the dict.get calls in main,
send_summary.py lines 211 to 215. -/
def notAvailable : PyStr := "N/A".toList

/-- The Bitcoin prompt template, send_summary.py lines 218 to 222. -/
def btcPromptOf (price news : PyStr) : PyStr :=
  "Provide a concise 100-word analysis based on the following Bitcoin price and news:\nPrice: $".toList
    ++ price ++ "\nNews: ".toList ++ news

/-- The Ethereum prompt template, send_summary.py lines 224 to 228. -/
def ethPromptOf (price news : PyStr) : PyStr :=
  "Provide a concise 100-word analysis based on the following Ethereum price and news:\nPrice: $".toList
    ++ price ++ "\nNews: ".toList ++ news

/-- compose_email from send_summary.py lines 172 to 187. -/
def compose_email (btcSummary ethSummary : PyStr) : PyStr :=
  "**Bitcoin (BTC) Summary:**\n".toList ++ btcSummary
    ++ "\n\n**Ethereum (ETH) Summary:**\n".toList ++ ethSummary

/-- main of send_summary.py lines 193 to 239, from the point where the
four latest rows have been fetched.  gen models generate_summary (a
call to the external text generator, which never raises: it returns a
fallback string on failure), today models the current UTC date string.
The first component is the subject and body handed to send_email, or
none when composition was aborted; the second component lists the
error log lines written by main itself. -/
def send_summary_main (gen : PyStr → PyStr) (today : PyStr)
    (btcPriceEntry btcNewsEntry ethPriceEntry ethNewsEntry : Row) :
    Option (PyStr × PyStr) × List PyStr :=
  if btcPriceEntry.isEmpty || btcNewsEntry.isEmpty then
    (none, [btcIncompleteMsg])
  else if ethPriceEntry.isEmpty || ethNewsEntry.isEmpty then
    (none, [ethIncompleteMsg])
  else
    let btcPrice := rowGet btcPriceEntry "prices" notAvailable
    let btcNews := rowGet btcNewsEntry "news" notAvailable
    let ethPrice := rowGet ethPriceEntry "prices" notAvailable
    let ethNews := rowGet ethNewsEntry "news" notAvailable
    let btcSummary := gen (btcPromptOf btcPrice btcNews)
    let ethSummary := gen (ethPromptOf ethPrice ethNews)
    (some ("Crypto Update - ".toList ++ today,
      compose_email btcSummary ethSummary), [])

/-- Bitcoin-relevant sample candidate used to instantiate theorems. -/
def artBtcA : Article := ⟨some ("Bitcoin soars".toList), some [], some []⟩

/-- Second Bitcoin-relevant sample candidate. -/
def artBtcB : Article := ⟨some ("Bitcoin dips".toList), some [], some []⟩

/-- Sample candidate that the filter rejects for the Bitcoin query. -/
def artOther : Article := ⟨some ("Stocks rally".toList), some [], some []⟩

/-- Store read trace that fails twice and then succeeds with one row. -/
def readsFlaky : Nat → Except String (List Row) :=
  fun i => if i < 2 then Except.error "store unavailable" else
    Except.ok [[("prices", "61234.5".toList)]]

/-- Store read trace that fails on every attempt. -/
def readsDown : Nat → Except String (List Row) :=
  fun _ => Except.error "store unavailable"

theorem pyStarts_iff (n h : PyStr) : pyStarts n h = true ↔ n <+: h := by
  induction n generalizing h with
  | nil => simp [pyStarts]
  | cons a xs ih =>
    cases h with
    | nil => simp [pyStarts]
    | cons b ys =>
      simp [pyStarts, List.cons_prefix_cons, ih]

theorem pyContains_iff (n h : PyStr) : pyContains n h = true ↔ n <:+: h := by
  induction h with
  | nil =>
    simp [pyContains, pyStarts_iff]
  | cons c rest ih =>
    simp [pyContains, pyStarts_iff, ih, List.infix_cons_iff]

theorem is_relevant_article_eq (t d c k : PyStr) :
    is_relevant_article ⟨some t, some d, some c⟩ k =
      (if pyContains (pyLower k) (pyLower t) then Except.ok true
       else Except.ok (decide (2 ≤ pyCount (pyLower k) (pyLower d)
              + pyCount (pyLower k) (pyLower c)))) := rfl

/-- C1: on an article whose three fields are strings, is_relevant_article
returns True exactly when the lowercased keyword occurs as a substring of
the lowercased title, or the number of its occurrences (non-overlapping,
left to right, as Python str.count) in the lowercased description plus
those in the lowercased content is at least 2; moreover a single title
occurrence with empty description and content is accepted, a single
description occurrence alone is rejected, and one description occurrence
plus one content occurrence is accepted. -/
theorem C1_relevance_rule :
    (∀ (t d c k : PyStr),
        (is_relevant_article ⟨some t, some d, some c⟩ k = Except.ok true ↔
          (pyLower k <:+: pyLower t ∨
            2 ≤ pyCount (pyLower k) (pyLower d) + pyCount (pyLower k) (pyLower c))))
    ∧ is_relevant_article
        ⟨some ("Bitcoin rallies".toList), some [], some []⟩
        ("Bitcoin".toList) = Except.ok true
    ∧ is_relevant_article
        ⟨some ("Market update".toList), some ("bitcoin slips".toList),
          some ("stocks climb".toList)⟩
        ("Bitcoin".toList) = Except.ok false
    ∧ is_relevant_article
        ⟨some ("Market update".toList), some ("bitcoin slips".toList),
          some ("bitcoin rallies".toList)⟩
        ("Bitcoin".toList) = Except.ok true := by
  refine ⟨?_, by rfl, by rfl, by rfl⟩
  intro t d c k
  rw [is_relevant_article_eq]
  by_cases hc : pyContains (pyLower k) (pyLower t)
  · simp [hc, (pyContains_iff _ _).mp hc]
  · have hni : ¬ pyLower k <:+: pyLower t :=
      fun hinf => hc ((pyContains_iff _ _).mpr hinf)
    simp [hc, hni]

theorem firstRelevant_append (q : PyStr) (pre post : List Article) (a : Article)
    (hpre : ∀ b ∈ pre, is_relevant_article b q = Except.ok false)
    (ha : is_relevant_article a q = Except.ok true) :
    firstRelevant (pre ++ a :: post) q = Except.ok (formatArticle a) := by
  induction pre with
  | nil => simp [firstRelevant, ha]
  | cons b rest ih =>
    have hb : is_relevant_article b q = Except.ok false := hpre b (by simp)
    simp only [List.cons_append, firstRelevant, hb]
    exact ih (fun x hx => hpre x (by simp [hx]))

theorem firstRelevant_none (q : PyStr) (arts : List Article)
    (h : ∀ a ∈ arts, is_relevant_article a q = Except.ok false) :
    firstRelevant arts q = Except.ok noRelevantMsg := by
  induction arts with
  | nil => rfl
  | cons a rest ih =>
    have ha : is_relevant_article a q = Except.ok false := h a (by simp)
    simp only [firstRelevant, ha]
    exact ih (fun x hx => h x (by simp [hx]))

/-- C2: on a successful provider response, fetch_latest_news returns the
formatted title and description of the first candidate, in provider
order, that passes the relevance rule; the candidates after the first
passing one never affect the result, and swapping two passing
candidates swaps which of them is returned. -/
theorem C2_first_match :
    (∀ (q : PyStr) (pre post : List Article) (a : Article),
        (∀ b ∈ pre, is_relevant_article b q = Except.ok false) →
        is_relevant_article a q = Except.ok true →
        fetch_latest_news q (NewsOutcome.ok (some (pre ++ a :: post))) =
          Except.ok (formatArticle a))
    ∧ (∀ (q : PyStr) (a b : Article) (rest : List Article),
        is_relevant_article a q = Except.ok true →
        is_relevant_article b q = Except.ok true →
        fetch_latest_news q (NewsOutcome.ok (some (a :: b :: rest))) =
            Except.ok (formatArticle a) ∧
          fetch_latest_news q (NewsOutcome.ok (some (b :: a :: rest))) =
            Except.ok (formatArticle b)) := by
  constructor
  · intro q pre post a hpre ha
    have h : fetch_latest_news q (NewsOutcome.ok (some (pre ++ a :: post))) =
        firstRelevant (pre ++ a :: post) q := by
      cases pre with
      | nil => rfl
      | cons x xs =>
        rw [List.cons_append]
        rfl
    rw [h]
    exact firstRelevant_append q pre post a hpre ha
  · intro q a b rest ha hb
    exact ⟨by simp [fetch_latest_news, firstRelevant, ha],
      by simp [fetch_latest_news, firstRelevant, hb]⟩

theorem C2_first_match_witness :
    fetch_latest_news btcQuery (NewsOutcome.ok (some ([artOther] ++ artBtcA :: [artBtcB]))) =
        Except.ok (formatArticle artBtcA)
    ∧ (fetch_latest_news btcQuery (NewsOutcome.ok (some (artBtcA :: artBtcB :: []))) =
          Except.ok (formatArticle artBtcA)
        ∧ fetch_latest_news btcQuery (NewsOutcome.ok (some (artBtcB :: artBtcA :: []))) =
          Except.ok (formatArticle artBtcB)) :=
  ⟨C2_first_match.1 btcQuery [artOther] [artBtcB] artBtcA
      (by intro b hb; simp only [List.mem_singleton] at hb; subst hb; rfl) rfl,
    C2_first_match.2 btcQuery artBtcA artBtcB [] rfl rfl⟩

/-- C8: a non-empty candidate batch in which no candidate passes the
filter yields the no-relevant sentinel, a response with zero candidates
(or with a null articles key) yields the no-articles sentinel, neither
case raises, and the two sentinel strings differ. -/
theorem C8_sentinels :
    (∀ (q : PyStr) (a : Article) (rest : List Article),
        (∀ b ∈ a :: rest, is_relevant_article b q = Except.ok false) →
        fetch_latest_news q (NewsOutcome.ok (some (a :: rest))) =
          Except.ok noRelevantMsg)
    ∧ (∀ q : PyStr,
        fetch_latest_news q (NewsOutcome.ok (some [])) = Except.ok noArticlesMsg
        ∧ fetch_latest_news q (NewsOutcome.ok none) = Except.ok noArticlesMsg)
    ∧ noRelevantMsg ≠ noArticlesMsg := by
  refine ⟨?_, fun q => ⟨rfl, rfl⟩, by decide⟩
  intro q a rest h
  exact firstRelevant_none q (a :: rest) h

theorem C8_sentinels_witness :
    fetch_latest_news btcQuery (NewsOutcome.ok (some (artOther :: []))) =
      Except.ok noRelevantMsg :=
  C8_sentinels.1 btcQuery artOther []
    (by intro b hb; simp only [List.mem_singleton] at hb; subst hb; rfl)

/-- C3: fetch_latest_entry retries the store read on any exception, up
to 3 attempts with a fixed 5 second wait between attempts: two failing
attempts followed by a successful third return the read record (first
row, or the empty dictionary) after exactly 3 attempts and 10 seconds
of waiting; three failing attempts re-raise the final exception to the
caller after exactly 3 attempts.  The retry policy itself is modelled
from the spec, since the tenacity decorator is outside the repository. -/
theorem C3_retry :
    (∀ (reads : Nat → Except String (List Row)) (e0 e1 : String) (rows : List Row),
        reads 0 = Except.error e0 → reads 1 = Except.error e1 →
        reads 2 = Except.ok rows →
        fetch_latest_entry reads = ⟨Except.ok (firstRowOrEmpty rows), 3, 10⟩)
    ∧ (∀ (reads : Nat → Except String (List Row)) (e0 e1 e2 : String),
        reads 0 = Except.error e0 → reads 1 = Except.error e1 →
        reads 2 = Except.error e2 →
        fetch_latest_entry reads = ⟨Except.error e2, 3, 10⟩) := by
  constructor
  · intro reads e0 e1 rows h0 h1 h2
    simp [fetch_latest_entry, retryRun, retryGo, fetch_latest_entry_once, h0, h1, h2]
  · intro reads e0 e1 e2 h0 h1 h2
    simp [fetch_latest_entry, retryRun, retryGo, fetch_latest_entry_once, h0, h1, h2]

theorem C3_retry_witness :
    fetch_latest_entry readsFlaky =
        ⟨Except.ok [("prices", "61234.5".toList)], 3, 10⟩
    ∧ fetch_latest_entry readsDown = ⟨Except.error "store unavailable", 3, 10⟩ :=
  ⟨C3_retry.1 readsFlaky "store unavailable" "store unavailable"
      [[("prices", "61234.5".toList)]] rfl rfl rfl,
    C3_retry.2 readsDown "store unavailable" "store unavailable"
      "store unavailable" rfl rfl rfl⟩

/-- C7: a successful store read with an empty result set makes
fetch_latest_entry return the EMPTY dictionary on the first attempt, no
retry and no wait; and whenever any of the four latest rows handed to
the digest flow is EMPTY, main logs the affected asset, aborts, and
hands nothing to send_email. -/
theorem C7_empty_aborts :
    (∀ reads : Nat → Except String (List Row),
        reads 0 = Except.ok [] →
        fetch_latest_entry reads = ⟨Except.ok [], 1, 0⟩)
    ∧ (∀ (gen : PyStr → PyStr) (today : PyStr) (bp bn ep en : Row),
        bp = [] ∨ bn = [] ∨ ep = [] ∨ en = [] →
        (send_summary_main gen today bp bn ep en).1 = none)
    ∧ (∀ (gen : PyStr → PyStr) (today : PyStr) (bp bn ep en : Row),
        (bp = [] ∨ bn = [] →
          send_summary_main gen today bp bn ep en = (none, [btcIncompleteMsg]))
        ∧ (bp ≠ [] → bn ≠ [] → ep = [] ∨ en = [] →
          send_summary_main gen today bp bn ep en = (none, [ethIncompleteMsg]))) := by
  refine ⟨?_, ?_, ?_⟩
  · intro reads h0
    simp [fetch_latest_entry, retryRun, retryGo, fetch_latest_entry_once, h0,
      firstRowOrEmpty]
  · intro gen today bp bn ep en h
    rcases h with rfl | rfl | rfl | rfl <;>
      simp [send_summary_main, List.isEmpty_iff] <;>
      (try (split <;> rfl))
  · intro gen today bp bn ep en
    constructor
    · intro h
      rcases h with rfl | rfl <;> simp [send_summary_main, List.isEmpty_iff]
    · intro hbp hbn h
      rcases h with rfl | rfl <;>
        simp [send_summary_main, List.isEmpty_iff, hbp, hbn]

theorem C7_empty_aborts_witness :
    fetch_latest_entry (fun _ => Except.ok []) = ⟨Except.ok [], 1, 0⟩
    ∧ (send_summary_main id [] [("prices", "1".toList)]
        [("news", "n".toList)] [("prices", "2".toList)] []).1 = none :=
  ⟨C7_empty_aborts.1 (fun _ => Except.ok []) rfl,
    C7_empty_aborts.2.1 id [] [("prices", "1".toList)]
      [("news", "n".toList)] [("prices", "2".toList)] []
      (Or.inr (Or.inr (Or.inr rfl)))⟩

/-- C9: store_price called with a None price issues no insert at all,
and a run of the price main flow in which both fetches fail with a
caught requests exception issues no insert into either table. -/
theorem C9_no_insert_on_failure :
    (∀ (tableName now : String), store_price tableName none now = [])
    ∧ (∀ (m1 m2 now : String),
        btc_eth_price_main (PriceOutcome.requestError m1)
          (PriceOutcome.requestError m2) now = Except.ok []) :=
  ⟨fun _ _ => rfl, fun _ _ _ => rfl⟩

/-- C4 counterexample: a provider response containing an article whose
description and content are null (as the news API returns for removed
articles) makes fetch_latest_news raise an uncaught AttributeError
instead of returning a string, so the function does raise past its
boundary. -/
theorem C4_counterexample :
    fetch_latest_news btcQuery
        (NewsOutcome.ok (some [⟨some ("Bitcoin story".toList), none, none⟩])) =
      Except.error PyErr.attributeError := rfl

theorem is_relevant_article_total (t d c k : PyStr) :
    ∃ b, is_relevant_article ⟨some t, some d, some c⟩ k = Except.ok b := by
  by_cases hc : pyContains (pyLower k) (pyLower t)
  · exact ⟨true, by rw [is_relevant_article_eq, if_pos hc]⟩
  · exact ⟨_, by rw [is_relevant_article_eq, if_neg hc]⟩

theorem firstRelevant_total (q : PyStr) (arts : List Article)
    (h : ∀ a ∈ arts, ∃ t d c, a = Article.mk (some t) (some d) (some c)) :
    ∃ s, firstRelevant arts q = Except.ok s := by
  induction arts with
  | nil => exact ⟨noRelevantMsg, rfl⟩
  | cons a rest ih =>
    obtain ⟨t, d, c, rfl⟩ := h a (by simp)
    obtain ⟨b, hb⟩ := is_relevant_article_total t d c q
    cases b with
    | true =>
      exact ⟨formatArticle ⟨some t, some d, some c⟩, by simp [firstRelevant, hb]⟩
    | false =>
      obtain ⟨s, hs⟩ := ih (fun x hx => h x (by simp [hx]))
      exact ⟨s, by simp [firstRelevant, hb, hs]⟩

/-- C4 amended: both caught request-level failures are converted into
the human-readable error string, and on any response whose articles all
have string (non-null) title, description and content fields the
function returns a string without raising; the never-raises guarantee
stops there, because a null article field raises an uncaught
AttributeError. -/
theorem C4_error_containment :
    (∀ q msg : PyStr,
        fetch_latest_news q (NewsOutcome.httpError msg) =
            Except.ok (errorFetchMsg q msg)
        ∧ fetch_latest_news q (NewsOutcome.requestError msg) =
            Except.ok (errorFetchMsg q msg))
    ∧ (∀ (q : PyStr) (arts : Option (List Article)),
        (∀ l, arts = some l →
          ∀ a ∈ l, ∃ t d c, a = Article.mk (some t) (some d) (some c)) →
        ∃ s, fetch_latest_news q (NewsOutcome.ok arts) = Except.ok s) := by
  refine ⟨fun q msg => ⟨rfl, rfl⟩, ?_⟩
  intro q arts h
  match arts with
  | none => exact ⟨noArticlesMsg, rfl⟩
  | some [] => exact ⟨noArticlesMsg, rfl⟩
  | some (a :: rest) => exact firstRelevant_total q (a :: rest) (h (a :: rest) rfl)

theorem C4_error_containment_witness :
    ∃ s, fetch_latest_news btcQuery (NewsOutcome.ok (some [artBtcA])) =
      Except.ok s :=
  C4_error_containment.2 btcQuery (some [artBtcA])
    (by
      intro l hl a ha
      cases hl
      simp only [List.mem_singleton] at ha
      subst ha
      exact ⟨"Bitcoin soars".toList, [], [], rfl⟩)

/-- C5 counterexample: a successful provider response whose payload has
the asset entry but no usd key makes fetch_crypto_price raise an
uncaught KeyError rather than return the None failure value. -/
theorem C5_counterexample :
    fetch_crypto_price "bitcoin" (PriceOutcome.ok [("bitcoin", [])]) =
      Except.error (PyErr.keyError "usd") := rfl

/-- C5 amended: a caught requests-level failure (network error or
non-2xx response) returns None with no exception, and a well-formed
payload returns the quoted price; but a payload lacking the asset-id
key raises an uncaught KeyError, so the no-exception guarantee does not
extend to malformed payloads. -/
theorem C5_price_failure :
    (∀ cryptoId msg : String,
        fetch_crypto_price cryptoId (PriceOutcome.requestError msg) =
          Except.ok none)
    ∧ (∀ (cryptoId : String) (p : ℚ) (rest : List (String × ℚ)),
        fetch_crypto_price cryptoId
            (PriceOutcome.ok [(cryptoId, ("usd", p) :: rest)]) =
          Except.ok (some p))
    ∧ (∀ (cryptoId : String) (data : List (String × List (String × ℚ))),
        data.find? (fun pr => pr.1 == cryptoId) = none →
        fetch_crypto_price cryptoId (PriceOutcome.ok data) =
          Except.error (PyErr.keyError cryptoId)) := by
  refine ⟨fun i m => rfl, ?_, ?_⟩
  · intro i p rest
    simp [fetch_crypto_price, pyDictIndex, List.find?]
  · intro i data h
    simp [fetch_crypto_price, pyDictIndex, h]

theorem C5_price_failure_witness :
    fetch_crypto_price "bitcoin" (PriceOutcome.ok []) =
      Except.error (PyErr.keyError "bitcoin") :=
  C5_price_failure.2.2 "bitcoin" [] rfl

/-- C6 counterexample: when the provider returns zero candidates for
both queries, the news main flow still inserts the no-articles sentinel
into the btc_news table, so the store does receive a value that never
passed the Relevance Filter. -/
theorem C6_counterexample :
    ("btc_news", noArticlesMsg) ∈
      (fetch_news_main (NewsOutcome.ok (some [])) (NewsOutcome.ok (some []))).1 := by
  simp [fetch_news_main, fetch_latest_news]

/-- C6 amended: the news main flow inserts, unconditionally, exactly
the string returned by fetch_latest_news for the corresponding query:
the filtered article text when one passed, but equally the no-articles
sentinel, the no-relevant sentinel, or a fetch error string.  The
invariant that the store only receives filter-passing articles does not
hold. -/
theorem C6_news_inserts :
    ∀ (btcOut ethOut : NewsOutcome) (t : String) (v : PyStr),
      (t, v) ∈ (fetch_news_main btcOut ethOut).1 →
      (t = "btc_news" ∧ fetch_latest_news btcQuery btcOut = Except.ok v)
      ∨ (t = "eth_news" ∧ fetch_latest_news ethQuery ethOut = Except.ok v) := by
  intro bo eo t v h
  unfold fetch_news_main at h
  cases hb : fetch_latest_news btcQuery bo with
  | error e => rw [hb] at h; simp at h
  | ok b =>
    rw [hb] at h
    cases he : fetch_latest_news ethQuery eo with
    | error e =>
      rw [he] at h
      simp only [List.mem_singleton, Prod.mk.injEq] at h
      rcases h with ⟨rfl, h2⟩
      exact Or.inl ⟨rfl, by simp [hb, h2]⟩
    | ok w =>
      rw [he] at h
      simp only [List.mem_cons, List.mem_singleton, Prod.mk.injEq,
        List.not_mem_nil, or_false] at h
      rcases h with ⟨rfl, h2⟩ | ⟨rfl, h2⟩
      · exact Or.inl ⟨rfl, by simp [hb, h2]⟩
      · exact Or.inr ⟨rfl, by simp [he, h2]⟩

theorem C6_news_inserts_witness :
    ("btc_news" = "btc_news"
        ∧ fetch_latest_news btcQuery (NewsOutcome.ok (some [])) =
          Except.ok noArticlesMsg)
    ∨ ("btc_news" = "eth_news"
        ∧ fetch_latest_news ethQuery (NewsOutcome.ok (some [])) =
          Except.ok noArticlesMsg) :=
  C6_news_inserts (NewsOutcome.ok (some [])) (NewsOutcome.ok (some []))
    "btc_news" noArticlesMsg (by simp [fetch_news_main, fetch_latest_news])

/-- C10 counterexample: the claim quantifies over every article whose
title field is a string, but an article with a string title and a null
description raises AttributeError for the empty keyword instead of
returning True, because all three fields are lowercased before the
title test. -/
theorem C10_counterexample :
    is_relevant_article ⟨some [], none, none⟩ [] =
        Except.error PyErr.attributeError
    ∧ is_relevant_article ⟨some [], none, none⟩ [] ≠ Except.ok true := by
  refine ⟨rfl, ?_⟩
  intro h
  rw [(rfl : is_relevant_article ⟨some [], none, none⟩ [] =
      Except.error PyErr.attributeError)] at h
  exact Except.noConfusion h

/-- C10 amended: for the empty keyword, is_relevant_article returns
True on every article whose title, description and content fields are
all strings (the empty string is a substring of every title), and
fetch_latest_news with the empty query therefore returns the first
candidate of any such batch unconditionally, filtering nothing. -/
theorem C10_empty_keyword :
    (∀ t d c : PyStr,
        is_relevant_article ⟨some t, some d, some c⟩ [] = Except.ok true)
    ∧ (∀ (t d c : PyStr) (rest : List Article),
        fetch_latest_news []
            (NewsOutcome.ok (some (Article.mk (some t) (some d) (some c) :: rest))) =
          Except.ok (formatArticle ⟨some t, some d, some c⟩)) := by
  have hrel : ∀ t d c : PyStr,
      is_relevant_article ⟨some t, some d, some c⟩ [] = Except.ok true := by
    intro t d c
    have hc : pyContains (pyLower []) (pyLower t) = true :=
      (pyContains_iff _ _).mpr (by simp [pyLower])
    rw [is_relevant_article_eq, if_pos hc]
  refine ⟨hrel, ?_⟩
  intro t d c rest
  simp [fetch_latest_news, firstRelevant, hrel t d c]
